import Mathlib

/-!
Verification development for the arrpc-rs repository.

The repository is a local rich-presence gateway: a Unix-socket IPC server
speaking a length-prefixed binary frame protocol (src/ipc/structs.rs,
src/ipc/server.rs), an activity normalizer (src/structs.rs), a dispatcher
that turns IPC events into published activity messages (src/server.rs),
and a websocket bridge that fans activity out to subscribers
(src/bridge.rs).

The shallow embedding below translates those modules into Lean.  JSON
payloads are modelled by the inductive `Json` (integers only: no field of
any wire struct is a float); the serde_json byte layer (printing a JSON
value and parsing it back) is an external library treated as the identity
on JSON values, so the codec is embedded at the (tag, JSON value) level,
while the 8-byte header handling of `try_decode` is additionally embedded
at the byte level where a claim needs it.
-/

/-- Model of a serde_json value as produced or consumed by the wire
structs of this repository.  Numbers are integers: every numeric field of
the wire structs is an integer type in the source. -/
inductive Json where
  | null : Json
  | bool (b : Bool) : Json
  | num (n : Int) : Json
  | str (s : String) : Json
  | arr (elems : List Json) : Json
  | obj (fields : List (String × Json)) : Json

/-- Field access in a JSON object, as serde performs it by field name. -/
def Json.asStr : Json → Option String
  | .str s => some s
  | _ => none

/-- serde deserialization of a Rust bool. -/
def Json.asBool : Json → Option Bool
  | .bool b => some b
  | _ => none

/-- serde deserialization of an i32: an integer in the i32 range
(the bound literal is 2^31; `.negSucc m` is `-(m+1)`, so the negative
range check `-2^31 ≤ -(m+1)` is `m < 2^31`). -/
def Json.asI32 : Json → Option Int
  | .num (.ofNat m) => if m < 2147483648 then some (Int.ofNat m) else none
  | .num (.negSucc m) => if m < 2147483648 then some (Int.negSucc m) else none
  | _ => none

/-- serde deserialization of a u64 or usize (64-bit target):
a nonnegative integer below 2^64 (the bound literal is 2^64). -/
def Json.asU64 : Json → Option Nat
  | .num (.ofNat m) => if m < 18446744073709551616 then some m else none
  | _ => none

/-- serde deserialization of an `Option<String>` struct field: a missing
field or an explicit null is `None`; a string is `Some`; anything else is
a parse error. -/
def optStrOf (fs : List (String × Json)) (k : String) : Option (Option String) :=
  match fs.lookup k with
  | none => some none
  | some .null => some none
  | some (.str s) => some (some s)
  | some _ => none

/-- Serialization of an optional struct field marked
`#[serde(skip_serializing_if = "Option::is_none")]`: present exactly when
the value is `Some`. -/
def optJsonField (k : String) : Option Json → List (String × Json)
  | some j => [(k, j)]
  | none => []

/-- `Assets` from src/structs.rs: four optional strings, each skipped when
`None`. -/
structure Assets where
  large_image : Option String
  large_text : Option String
  small_image : Option String
  small_text : Option String
deriving Repr, DecidableEq

/-- `Assets::is_empty` from src/structs.rs lines 15-22. -/
def Assets.is_empty (a : Assets) : Bool :=
  a.large_image.isNone && a.large_text.isNone
    && a.small_image.isNone && a.small_text.isNone

/-- serde serialization of `Assets` (derived `Serialize` with the
skip attributes of src/structs.rs lines 3-13). -/
def Assets.toJson (a : Assets) : Json :=
  .obj (optJsonField "large_image" (a.large_image.map .str)
    ++ optJsonField "large_text" (a.large_text.map .str)
    ++ optJsonField "small_image" (a.small_image.map .str)
    ++ optJsonField "small_text" (a.small_text.map .str))

/-- serde deserialization of `Assets` (derived `Deserialize`): the input
must be an object; each optional field defaults to `None` when missing. -/
def Assets.fromJson : Json → Option Assets
  | .obj fs => do
      let li ← optStrOf fs "large_image"
      let lt ← optStrOf fs "large_text"
      let si ← optStrOf fs "small_image"
      let st ← optStrOf fs "small_text"
      some ⟨li, lt, si, st⟩
  | _ => none

/-- `Button` from src/structs.rs lines 24-28. -/
structure Button where
  label : String
  url : String
deriving Repr, DecidableEq

/-- serde serialization of `Button`. -/
def Button.toJson (b : Button) : Json :=
  .obj [("label", .str b.label), ("url", .str b.url)]

/-- serde deserialization of `Button`: both fields required strings. -/
def Button.fromJson : Json → Option Button
  | .obj fs =>
      match (fs.lookup "label").bind Json.asStr, (fs.lookup "url").bind Json.asStr with
      | some l, some u => some ⟨l, u⟩
      | _, _ => none
  | _ => none

/-- `Timestamps` from src/structs.rs lines 30-35: `start: u64` required,
`end: Option<u64>` skipped when `None` (the Lean field is `end_` because
`end` is a Lean keyword). -/
structure Timestamps where
  start : Nat
  end_ : Option Nat
deriving Repr, DecidableEq

/-- serde serialization of `Timestamps`. -/
def Timestamps.toJson (t : Timestamps) : Json :=
  .obj ([("start", .num (Int.ofNat t.start))]
    ++ optJsonField "end" (t.end_.map (fun e => .num (Int.ofNat e))))

/-- serde deserialization of `Timestamps`. -/
def Timestamps.fromJson : Json → Option Timestamps
  | .obj fs => do
      let s ← (fs.lookup "start").bind Json.asU64
      let e ← (match fs.lookup "end" with
        | none => some none
        | some .null => some none
        | some v => (Json.asU64 v).map some)
      some ⟨s, e⟩
  | _ => none

theorem button_fromJson_toJson (b : Button) : Button.fromJson b.toJson = some b := by
  cases b; rfl

theorem assets_fromJson_toJson (a : Assets) : Assets.fromJson a.toJson = some a := by
  obtain ⟨li, lt, si, st⟩ := a
  cases li <;> cases lt <;> cases si <;> cases st <;>
    simp [Assets.toJson, Assets.fromJson, optStrOf, optJsonField, List.lookup]

theorem timestamps_fromJson_toJson (t : Timestamps) (h : t.start < 2 ^ 64)
    (he : ∀ e, t.end_ = some e → e < 2 ^ 64) :
    Timestamps.fromJson t.toJson = some t := by
  obtain ⟨s, e⟩ := t
  cases e with
  | none =>
      have hs : s < 18446744073709551616 := by simpa using h
      simp [Timestamps.toJson, Timestamps.fromJson, optJsonField, List.lookup,
        Json.asU64, hs]
  | some ev =>
      have hs : s < 18446744073709551616 := by simpa using h
      have hev : ev < 18446744073709551616 := by simpa using he ev rfl
      simp [Timestamps.toJson, Timestamps.fromJson, optJsonField, List.lookup,
        Json.asU64, hs, hev]

/-- `IpcPartialActivity` from src/structs.rs lines 37-48: the raw activity
payload sent by a local client.  `assets` is skipped when empty and
`buttons` when the list is empty (and neither field has a serde default,
so both are required when deserializing); `timestamps` is optional
(the Lean field `instanceFlag` is the source field `instance`, a Lean
keyword). -/
structure IpcPartialActivity where
  state : String
  details : String
  assets : Assets
  buttons : List Button
  instanceFlag : Bool
  timestamps : Option Timestamps
deriving Repr, DecidableEq

/-- serde serialization of `IpcPartialActivity` with the skip attributes
of src/structs.rs lines 37-48. -/
def IpcPartialActivity.toJson (a : IpcPartialActivity) : Json :=
  .obj ([("state", .str a.state), ("details", .str a.details)]
    ++ (if a.assets.is_empty then [] else [("assets", a.assets.toJson)])
    ++ (if a.buttons.isEmpty then [] else [("buttons", .arr (a.buttons.map Button.toJson))])
    ++ [("instance", .bool a.instanceFlag)]
    ++ optJsonField "timestamps" (a.timestamps.map Timestamps.toJson))

/-- serde deserialization of a sequence of buttons, element by element in
order (the `Vec` visitor). -/
def buttonsFromJson : List Json → Option (List Button)
  | [] => some []
  | x :: xs => do
      let b ← Button.fromJson x
      let bs ← buttonsFromJson xs
      some (b :: bs)

/-- serde deserialization of a `Vec<Button>`: the input must be a JSON
array. -/
def jsonButtons : Json → Option (List Button)
  | .arr xs => buttonsFromJson xs
  | _ => none

/-- serde deserialization of `IpcPartialActivity`: `state`, `details`,
`assets`, `buttons` and `instance` are required (no serde default on any
of them), `timestamps` is optional. -/
def IpcPartialActivity.fromJson : Json → Option IpcPartialActivity
  | .obj fs => do
      let st ← (fs.lookup "state").bind Json.asStr
      let dt ← (fs.lookup "details").bind Json.asStr
      let asts ← (fs.lookup "assets").bind Assets.fromJson
      let btns ← (fs.lookup "buttons").bind jsonButtons
      let inst ← (fs.lookup "instance").bind Json.asBool
      let ts ← (match fs.lookup "timestamps" with
        | none => some none
        | some .null => some none
        | some v => (Timestamps.fromJson v).map some)
      some ⟨st, dt, asts, btns, inst, ts⟩
  | _ => none

/-- `HandshakeMessage` from src/ipc/structs.rs lines 136-141: `version`
is an i32 serialized under the name `v`. -/
structure HandshakeMessage where
  version : Int
  client_id : String
deriving Repr, DecidableEq

/-- serde serialization of `HandshakeMessage` (field rename `v`). -/
def HandshakeMessage.toJson (m : HandshakeMessage) : Json :=
  .obj [("v", .num m.version), ("client_id", .str m.client_id)]

/-- serde deserialization of `HandshakeMessage`. -/
def HandshakeMessage.fromJson : Json → Option HandshakeMessage
  | .obj fs => do
      let v ← (fs.lookup "v").bind Json.asI32
      let cid ← (fs.lookup "client_id").bind Json.asStr
      some ⟨v, cid⟩
  | _ => none

/-- `CloseCodes` from src/ipc/structs.rs lines 127-134.  The numeric
discriminants (1000, 1003, 1006, 4000, 4004) exist in the source, but the
derived serde `Serialize`/`Deserialize` for a C-like enum uses the variant
NAME as a JSON string, not the discriminant. -/
inductive CloseCodes where
  | Normal : CloseCodes
  | Unsupported : CloseCodes
  | Abnormal : CloseCodes
  | InvalidClientID : CloseCodes
  | InvalidVersion : CloseCodes
deriving Repr, DecidableEq

/-- serde serialization of `CloseCodes` (unit variant as its name). -/
def CloseCodes.toJson : CloseCodes → Json
  | .Normal => .str "Normal"
  | .Unsupported => .str "Unsupported"
  | .Abnormal => .str "Abnormal"
  | .InvalidClientID => .str "InvalidClientID"
  | .InvalidVersion => .str "InvalidVersion"

/-- serde deserialization of `CloseCodes`. -/
def CloseCodes.fromJson : Json → Option CloseCodes
  | .str "Normal" => some .Normal
  | .str "Unsupported" => some .Unsupported
  | .str "Abnormal" => some .Abnormal
  | .str "InvalidClientID" => some .InvalidClientID
  | .str "InvalidVersion" => some .InvalidVersion
  | _ => none

/-- `CloseMessage` from src/ipc/structs.rs lines 143-147. -/
structure CloseMessage where
  code : CloseCodes
  message : String
deriving Repr, DecidableEq

/-- serde serialization of `CloseMessage`. -/
def CloseMessage.toJson (m : CloseMessage) : Json :=
  .obj [("code", m.code.toJson), ("message", .str m.message)]

/-- serde deserialization of `CloseMessage`. -/
def CloseMessage.fromJson : Json → Option CloseMessage
  | .obj fs => do
      let c ← (fs.lookup "code").bind CloseCodes.fromJson
      let msg ← (fs.lookup "message").bind Json.asStr
      some ⟨c, msg⟩
  | _ => none

/-- `IpcFrameArgs` from src/ipc/structs.rs lines 149-153: `activity` is a
required `IpcPartialActivity`, `pid` a required usize. -/
structure IpcFrameArgs where
  activity : IpcPartialActivity
  pid : Nat
deriving Repr, DecidableEq

/-- serde serialization of `IpcFrameArgs`. -/
def IpcFrameArgs.toJson (a : IpcFrameArgs) : Json :=
  .obj [("activity", a.activity.toJson), ("pid", .num (Int.ofNat a.pid))]

/-- serde deserialization of `IpcFrameArgs`. -/
def IpcFrameArgs.fromJson : Json → Option IpcFrameArgs
  | .obj fs => do
      let act ← (fs.lookup "activity").bind IpcPartialActivity.fromJson
      let pid ← (fs.lookup "pid").bind Json.asU64
      some ⟨act, pid⟩
  | _ => none

/-- `IpcFrame` from src/ipc/structs.rs lines 155-165: `args`, `data` and
`evt` are optional and skipped when `None`; `cmd` and `nonce` are
required strings; `data` is an arbitrary JSON value. -/
structure IpcFrame where
  args : Option IpcFrameArgs
  data : Option Json
  cmd : String
  evt : Option String
  nonce : String

/-- serde serialization of `IpcFrame`. -/
def IpcFrame.toJson (f : IpcFrame) : Json :=
  .obj (optJsonField "args" (f.args.map IpcFrameArgs.toJson)
    ++ optJsonField "data" f.data
    ++ [("cmd", .str f.cmd)]
    ++ optJsonField "evt" (f.evt.map .str)
    ++ [("nonce", .str f.nonce)])

/-- serde deserialization of `IpcFrame`.  An `Option<Value>` field that is
present as JSON null deserializes to `None` (this is why a `data` equal to
`Some(Value::Null)` does not survive a round trip). -/
def IpcFrame.fromJson : Json → Option IpcFrame
  | .obj fs => do
      let args ← (match fs.lookup "args" with
        | none => some none
        | some .null => some none
        | some v => (IpcFrameArgs.fromJson v).map some)
      let data ← (match fs.lookup "data" with
        | none => some none
        | some .null => some none
        | some v => some (some v))
      let cmd ← (fs.lookup "cmd").bind Json.asStr
      let evt ← optStrOf fs "evt"
      let nonce ← (fs.lookup "nonce").bind Json.asStr
      some ⟨args, data, cmd, evt, nonce⟩
  | _ => none

/-- `IpcMessage` from src/ipc/structs.rs lines 36-43: the five wire
message kinds.  `Ping`/`Pong` carry an arbitrary `serde_json::Value`. -/
inductive IpcMessage where
  | handshake (data : HandshakeMessage) : IpcMessage
  | frame (data : IpcFrame) : IpcMessage
  | close (data : CloseMessage) : IpcMessage
  | ping (data : Json) : IpcMessage
  | pong (data : Json) : IpcMessage

/-- `IpcMessage::try_encode` from src/ipc/structs.rs lines 46-83,
embedded at the (tag, JSON payload) level: the tag written as the first
little-endian i32 of the header, and the JSON value whose serde_json
serialization forms the payload bytes (the payload length header field is
determined by those bytes). -/
def IpcMessage.encode : IpcMessage → Int × Json
  | .handshake d => (0, d.toJson)
  | .frame d => (1, d.toJson)
  | .close d => (2, d.toJson)
  | .ping d => (3, d)
  | .pong d => (4, d)

/-- The tag-dispatch part of `IpcMessage::try_decode` from
src/ipc/structs.rs lines 92-123, embedded at the (tag, JSON payload)
level.  `payload` is the result of parsing the payload bytes as JSON:
`none` models malformed JSON bytes (for `Ping`/`Pong`, whose payload type
is `Value`, JSON parsing is the whole of `from_slice`).  Tag 2 falls back
to `Close{code: Normal, message: ""}` when the payload does not parse as
a `CloseMessage`; every other parse failure, and every tag outside 0..4,
is an error. -/
def IpcMessage.tryDecodeTag (tag : Int) (payload : Option Json) : Except String IpcMessage :=
  if tag = 0 then
    match payload.bind HandshakeMessage.fromJson with
    | some d => .ok (.handshake d)
    | none => .error "parse error"
  else if tag = 1 then
    match payload.bind IpcFrame.fromJson with
    | some d => .ok (.frame d)
    | none => .error "parse error"
  else if tag = 2 then
    match payload.bind CloseMessage.fromJson with
    | some d => .ok (.close d)
    | none => .ok (.close ⟨.Normal, ""⟩)
  else if tag = 3 then
    match payload with
    | some d => .ok (.ping d)
    | none => .error "parse error"
  else if tag = 4 then
    match payload with
    | some d => .ok (.pong d)
    | none => .error "parse error"
  else .error "Invalid IPC Message Type"

theorem Json.asU64_ofNat (s : Nat) (hs : s < 2 ^ 64) :
    Json.asU64 (.num (Int.ofNat s)) = some s := by
  have h : s < 18446744073709551616 := by simpa using hs
  simp [Json.asU64, h]

theorem Json.asI32_num (v : Int) (h1 : -2147483648 ≤ v) (h2 : v < 2147483648) :
    Json.asI32 (.num v) = some v := by
  cases v with
  | ofNat m =>
      have hm : m < 2147483648 := by
        rw [Int.ofNat_eq_natCast] at h2; exact_mod_cast h2
      simp [Json.asI32, hm]
  | negSucc m =>
      have hm : m < 2147483648 := by
        rw [Int.negSucc_eq] at h1; omega
      simp [Json.asI32, hm]

theorem handshake_fromJson_toJson (m : HandshakeMessage)
    (h1 : -2147483648 ≤ m.version) (h2 : m.version < 2147483648) :
    HandshakeMessage.fromJson m.toJson = some m := by
  obtain ⟨v, cid⟩ := m
  simp only [HandshakeMessage.toJson, HandshakeMessage.fromJson, List.lookup]
  simp [Json.asI32_num v h1 h2, Json.asStr]

theorem closeCodes_fromJson_toJson (c : CloseCodes) :
    CloseCodes.fromJson c.toJson = some c := by
  cases c <;> rfl

theorem closeMessage_fromJson_toJson (m : CloseMessage) :
    CloseMessage.fromJson m.toJson = some m := by
  obtain ⟨c, msg⟩ := m
  simp only [CloseMessage.toJson, CloseMessage.fromJson, List.lookup]
  simp [closeCodes_fromJson_toJson, Json.asStr]

theorem buttonsFromJson_toJson (bs : List Button) :
    buttonsFromJson (bs.map Button.toJson) = some bs := by
  induction bs with
  | nil => rfl
  | cons b bs ih => simp [buttonsFromJson, button_fromJson_toJson, ih]

theorem jsonButtons_toJson (bs : List Button) :
    jsonButtons (.arr (bs.map Button.toJson)) = some bs := by
  simp [jsonButtons, buttonsFromJson_toJson]

/-- Round-trip validity of one raw activity payload: serde can only
re-read what serialization kept, so the skipped-but-required fields
(`assets`, `buttons`) must be present, and the u64 timestamps must be in
machine range (they always are for a value that exists in the running
program). -/
def IpcPartialActivity.wfRT (a : IpcPartialActivity) : Prop :=
  a.assets.is_empty = false ∧ a.buttons.isEmpty = false ∧
    (∀ t, a.timestamps = some t →
      t.start < 2 ^ 64 ∧ ∀ e, t.end_ = some e → e < 2 ^ 64)

theorem partialActivity_fromJson_toJson (a : IpcPartialActivity)
    (h : a.wfRT) : IpcPartialActivity.fromJson a.toJson = some a := by
  obtain ⟨st, dt, asts, btns, inst, ts⟩ := a
  obtain ⟨ha, hb, ht⟩ := h
  simp only at ha hb ht
  simp only [IpcPartialActivity.toJson]
  rw [if_neg (by simp [ha]), if_neg (by simp [hb])]
  cases ts with
  | none =>
      simp [IpcPartialActivity.fromJson, List.lookup, Json.asStr, Json.asBool,
        optJsonField, assets_fromJson_toJson, jsonButtons_toJson]
  | some t =>
      have hts := timestamps_fromJson_toJson t (ht t rfl).1 (ht t rfl).2
      simp [Timestamps.toJson, optJsonField, Int.ofNat_eq_natCast] at hts
      simp [IpcPartialActivity.fromJson, List.lookup, Json.asStr, Json.asBool,
        optJsonField, assets_fromJson_toJson, jsonButtons_toJson,
        Timestamps.toJson, Int.ofNat_eq_natCast, hts]

theorem frameArgs_fromJson_toJson (a : IpcFrameArgs)
    (hact : a.activity.wfRT) (hpid : a.pid < 2 ^ 64) :
    IpcFrameArgs.fromJson a.toJson = some a := by
  obtain ⟨act, pid⟩ := a
  have h1 := partialActivity_fromJson_toJson act hact
  have h2 := Json.asU64_ofNat pid hpid
  simp only [Int.ofNat_eq_natCast] at h2
  simp only [IpcFrameArgs.toJson, IpcFrameArgs.fromJson, List.lookup]
  simp [h1, h2]

/-- Round-trip validity of one `IpcFrame`: the embedded activity (when
`args` is present) must keep its required fields, the pid must fit in a
usize, and `data` must not be the JSON value null (an explicit null reads
back as `None`). -/
def IpcFrame.wfRT (f : IpcFrame) : Prop :=
  (∀ a, f.args = some a → a.activity.wfRT ∧ a.pid < 2 ^ 64) ∧ f.data ≠ some .null

theorem frame_fromJson_toJson (f : IpcFrame) (h : f.wfRT) :
    IpcFrame.fromJson f.toJson = some f := by
  obtain ⟨args, data, cmd, evt, nonce⟩ := f
  obtain ⟨hargs, hdata⟩ := h
  simp only at hargs hdata
  cases args with
  | none =>
      cases data with
      | none =>
          cases evt <;>
            simp [IpcFrame.toJson, IpcFrame.fromJson, optJsonField, optStrOf,
              List.lookup, Json.asStr]
      | some d =>
          have hd : d ≠ .null := fun h => hdata (by rw [h])
          cases evt <;> cases d <;> simp_all <;>
            simp [IpcFrame.toJson, IpcFrame.fromJson, optJsonField, optStrOf,
              List.lookup, Json.asStr]
  | some a =>
      have ha := frameArgs_fromJson_toJson a (hargs a rfl).1 (hargs a rfl).2
      simp only [IpcFrameArgs.toJson, Int.ofNat_eq_natCast] at ha
      cases data with
      | none =>
          cases evt <;>
            simp [IpcFrame.toJson, IpcFrame.fromJson, optJsonField, optStrOf,
              List.lookup, Json.asStr, IpcFrameArgs.toJson, ha]
      | some d =>
          have hd : d ≠ .null := fun h => hdata (by rw [h])
          cases evt <;> cases d <;> simp_all <;>
            simp [IpcFrame.toJson, IpcFrame.fromJson, optJsonField, optStrOf,
              List.lookup, Json.asStr, IpcFrameArgs.toJson, ha]

/-- Structural validity of a wire message for the round trip: a
`Handshake` version must fit in an i32 (it always does for a value of the
Rust type), and a `Frame` must satisfy `IpcFrame.wfRT`. -/
def IpcMessage.wfRT : IpcMessage → Prop
  | .handshake d => -2147483648 ≤ d.version ∧ d.version < 2147483648
  | .frame d => d.wfRT
  | .close _ => True
  | .ping _ => True
  | .pong _ => True

/-- C1 (amended): decoding the encoding of a structurally valid wire
message yields the message back, for every message kind, PROVIDED the
message survives serialization: a `Frame` whose `args` activity has an
empty button list or all-empty assets serializes without the `buttons` or
`assets` key, and deserialization then fails on the missing required
field (see the counterexample `c1_round_trip_cex`); likewise an explicit
JSON-null `data` field reads back as absent.  For `Handshake`, `Close`,
`Ping` and `Pong` messages the round trip holds unconditionally (with
integer fields in machine range, as every Rust value has). -/
theorem c1_round_trip (m : IpcMessage) (h : m.wfRT) :
    IpcMessage.tryDecodeTag m.encode.1 (some m.encode.2) = .ok m := by
  cases m with
  | handshake d =>
      simp [IpcMessage.encode, IpcMessage.tryDecodeTag,
        handshake_fromJson_toJson d h.1 h.2]
  | frame d =>
      simp [IpcMessage.encode, IpcMessage.tryDecodeTag,
        frame_fromJson_toJson d h]
  | close d =>
      simp [IpcMessage.encode, IpcMessage.tryDecodeTag,
        closeMessage_fromJson_toJson d]
  | ping d => rfl
  | pong d => rfl

/-- C1 witness: the round trip evaluated on a concrete full-featured
`Frame` message (activity with one button, one asset, timestamps, and a
handshake message as a second instance inside the witness of the
hypothesis). -/
theorem c1_round_trip_witness :
    IpcMessage.tryDecodeTag
        (IpcMessage.frame ⟨some ⟨⟨"st", "dt", ⟨some "li", none, none, none⟩,
            [⟨"play", "https:u1"⟩], true, some ⟨5, some 9⟩⟩, 42⟩,
          some (.str "x"), "SET_ACTIVITY", some "e", "n1"⟩).encode.1
        (some (IpcMessage.frame ⟨some ⟨⟨"st", "dt", ⟨some "li", none, none, none⟩,
            [⟨"play", "https:u1"⟩], true, some ⟨5, some 9⟩⟩, 42⟩,
          some (.str "x"), "SET_ACTIVITY", some "e", "n1"⟩).encode.2)
      = .ok (IpcMessage.frame ⟨some ⟨⟨"st", "dt", ⟨some "li", none, none, none⟩,
            [⟨"play", "https:u1"⟩], true, some ⟨5, some 9⟩⟩, 42⟩,
          some (.str "x"), "SET_ACTIVITY", some "e", "n1"⟩) := by
  apply c1_round_trip
  refine ⟨?_, ?_⟩
  · intro a ha
    cases ha
    refine ⟨⟨rfl, rfl, ?_⟩, by decide⟩
    intro t ht
    cases ht
    exact ⟨by decide, fun e he => by cases he; decide⟩
  · intro hd
    cases hd

/-- C1 counterexample: the claim as stated fails on the code.  The frame
`{args: {activity: {state, details, assets: {large_image: "i"}, buttons: [],
instance: true}, pid: 42}, cmd: "SET_ACTIVITY", nonce: "n"}` is a
structurally valid value of the wire type (the spec even uses
`buttons: []` in its own scenario), but `buttons` is skipped during
serialization because it is empty and has no serde default, so decoding
the encoding returns a parse error instead of the message. -/
theorem c1_round_trip_cex :
    IpcMessage.tryDecodeTag
        (IpcMessage.frame ⟨some ⟨⟨"s", "d", ⟨some "i", none, none, none⟩,
            [], true, none⟩, 42⟩, none, "SET_ACTIVITY", none, "n"⟩).encode.1
        (some (IpcMessage.frame ⟨some ⟨⟨"s", "d", ⟨some "i", none, none, none⟩,
            [], true, none⟩, 42⟩, none, "SET_ACTIVITY", none, "n"⟩).encode.2)
      = .error "parse error" := by
  rfl

/-- C8: error behavior of the decode dispatch of
`IpcMessage::try_decode` (src/ipc/structs.rs lines 92-123): a tag-2
payload that does not parse as a `CloseMessage` degrades to
`Close{code: Normal, message: ""}`; a parse failure under tag 0 or 1 is
an error; a JSON parse failure (payload `none`) under tag 3 or 4 is an
error; any tag outside 0..4 is the "Invalid IPC Message Type" error. -/
theorem c8_decode_errors :
    (∀ p, p.bind CloseMessage.fromJson = none →
        IpcMessage.tryDecodeTag 2 p = .ok (.close ⟨.Normal, ""⟩))
  ∧ (∀ p, p.bind HandshakeMessage.fromJson = none →
        IpcMessage.tryDecodeTag 0 p = .error "parse error")
  ∧ (∀ p, p.bind IpcFrame.fromJson = none →
        IpcMessage.tryDecodeTag 1 p = .error "parse error")
  ∧ IpcMessage.tryDecodeTag 3 none = .error "parse error"
  ∧ IpcMessage.tryDecodeTag 4 none = .error "parse error"
  ∧ (∀ (t : Int) p, (t < 0 ∨ 4 < t) →
        IpcMessage.tryDecodeTag t p = .error "Invalid IPC Message Type") := by
  refine ⟨?_, ?_, ?_, rfl, rfl, ?_⟩
  · intro p h
    simp [IpcMessage.tryDecodeTag, h]
  · intro p h
    simp [IpcMessage.tryDecodeTag, h]
  · intro p h
    simp [IpcMessage.tryDecodeTag, h]
  · intro t p ht
    have h0 : ¬(t = 0) := by omega
    have h1 : ¬(t = 1) := by omega
    have h2 : ¬(t = 2) := by omega
    have h3 : ¬(t = 3) := by omega
    have h4 : ¬(t = 4) := by omega
    simp [IpcMessage.tryDecodeTag, h0, h1, h2, h3, h4]

/-- C8 witness: the dispatch evaluated at concrete failing payloads: an
empty JSON object (which parses as none of the structured payloads), a
malformed-JSON payload (`none`), and the unknown tag 5. -/
theorem c8_decode_errors_witness :
    IpcMessage.tryDecodeTag 2 (some (.obj [])) = .ok (.close ⟨.Normal, ""⟩)
  ∧ IpcMessage.tryDecodeTag 0 (some (.obj [])) = .error "parse error"
  ∧ IpcMessage.tryDecodeTag 1 none = .error "parse error"
  ∧ IpcMessage.tryDecodeTag 5 (some .null) = .error "Invalid IPC Message Type" :=
  ⟨c8_decode_errors.1 _ rfl, c8_decode_errors.2.1 _ rfl,
   c8_decode_errors.2.2.1 _ rfl, c8_decode_errors.2.2.2.2.2 5 _ (by omega)⟩

/-- Model of `tokio::io::AsyncReadExt::read_buf` into a `BytesMut` with
spare capacity `cap`, on a stream whose currently available bytes are
`stream`: one read returns at most `cap` bytes (and returns 0 bytes at
end of stream, with `Ok`).  Bytes are modelled as natural numbers below
256. -/
def readBuf (cap : Nat) (stream : List Nat) : List Nat × List Nat :=
  (stream.take cap, stream.drop cap)

/-- Model of `bytes::Buf::get_i32_le`: consumes 4 little-endian bytes as
a signed 32-bit integer; with fewer than 4 bytes remaining the Rust
method PANICS, modelled as `none`. -/
def get_i32_le : List Nat → Option (Int × List Nat)
  | b0 :: b1 :: b2 :: b3 :: rest =>
      let u := b0 + 256 * b1 + 65536 * b2 + 16777216 * b3
      some (if u < 2147483648 then Int.ofNat u else Int.ofNat u - 4294967296, rest)
  | _ => none

/-- Outcome of the header phase of `IpcMessage::try_decode`
(src/ipc/structs.rs lines 85-91). -/
inductive HeaderResult where
  | panicked : HeaderResult
  | header (tag : Int) (len : Int) (payload : List Nat) : HeaderResult
deriving Repr, DecidableEq

/-- The byte-level header phase of `IpcMessage::try_decode`
(src/ipc/structs.rs lines 85-91): one `read_buf` of capacity 8, then two
`get_i32_le` calls on whatever that single read returned (each of which
panics when fewer than 4 bytes remain), then one `read_buf` of the
declared payload length.  The tag dispatch on the result is
`IpcMessage.tryDecodeTag`. -/
def try_decode_header (stream : List Nat) : HeaderResult :=
  let (info, rest) := readBuf 8 stream
  match get_i32_le info with
  | none => .panicked
  | some (tag, info2) =>
    match get_i32_le info2 with
    | none => .panicked
    | some (len, _) =>
      let (dataBuf, _) := readBuf len.toNat rest
      .header tag len dataBuf

/-- C10 (code bug): on a truncated input the decoder does not return a
decode error — it panics.  `try_decode` performs a single `read_buf` into
the 8-byte header buffer and then calls `get_i32_le` twice without
checking how many bytes the read returned; a stream that ends before 8
header bytes are available (here: a peer that connects and closes
immediately, delivering 0 bytes, and a peer that delivers only 4 bytes)
reaches `get_i32_le` with fewer than 4 bytes remaining, which panics
(`bytes::Buf` documents the panic), instead of returning `Err` to the
session loop as the claim (and the `Result` return type of `try_decode`)
requires. -/
theorem c10_truncated_header_panics :
    try_decode_header [] = .panicked
  ∧ try_decode_header [0, 0, 0, 0] = .panicked := ⟨rfl, rfl⟩

/-- `IpcCommand` from src/ipc/structs.rs lines 17-21: the outbound
commands the relay delivers on a session's broadcast channel. -/
inductive IpcCommand where
  | frameCmd (data : IpcFrame) : IpcCommand
  | closeCmd : IpcCommand

/-- `IpcCommand::try_encode` from src/ipc/structs.rs lines 23-34,
at the (tag, JSON payload) level like `IpcMessage.encode`. -/
def IpcCommand.encode : IpcCommand → Int × Json
  | .frameCmd data => (IpcMessage.frame data).encode
  | .closeCmd => (IpcMessage.close ⟨.Normal, ""⟩).encode

/-- Outcome of one iteration of the `handle_stream` session loop of
src/ipc/server.rs after a decoded inbound message: continue with the
given `handshake_done` flag, exit the loop cleanly (`break Ok(())`), or
terminate the handler with an error (`return Err(..)`). -/
inductive HandlerOutcome where
  | cont (handshake_done : Bool) : HandlerOutcome
  | closedOk : HandlerOutcome
  | fatal (err : String) : HandlerOutcome
deriving Repr, DecidableEq

/-- Effects of one session-loop iteration: the frames written to this
session's own connection (`stream.write_all`), the events forwarded
upward on the shared message channel (`tx.send`), and the loop
outcome. -/
structure StepResult where
  writes : List IpcMessage
  events : List IpcMessage
  outcome : HandlerOutcome

/-- The inbound-message arm of `IpcServer::handle_stream`
(src/ipc/server.rs lines 108-180): the per-session state machine, with
`handshake_done` the session state (`false` is the AwaitingHandshake
state, `true` the Active state).  Each match arm is translated from the
corresponding arm of the source `match event`. -/
def handle_event (handshake_done : Bool) : IpcMessage → StepResult
  | .handshake handshake_msg =>
      if handshake_done then
        ⟨[], [], .fatal "Handshake sent twice"⟩
      else if handshake_msg.version ≠ 1 then
        ⟨[.close ⟨.InvalidVersion, ""⟩], [], .fatal "Invalid Handshake version"⟩
      else if handshake_msg.client_id = "" then
        ⟨[.close ⟨.InvalidClientID, ""⟩], [], .fatal "Invalid Client ID"⟩
      else
        ⟨[], [.handshake handshake_msg], .cont true⟩
  | .ping data =>
      ⟨[.pong data], [.ping data], .cont handshake_done⟩
  | .pong data =>
      ⟨[], [.pong data], .cont handshake_done⟩
  | .frame data =>
      if !handshake_done then
        ⟨[], [], .fatal "Frame Sent before Handshake"⟩
      else
        ⟨[.frame ⟨none, none, "SET_ACTIVITY", none, data.nonce⟩],
          [.frame data], .cont handshake_done⟩
  | .close msg =>
      ⟨[], [.close msg], .closedOk⟩

/-- C2: an Activity-frame received while the session is still awaiting
its handshake (`handshake_done = false`) terminates the handler with an
error, forwards nothing upward, and writes no acknowledgement frame (no
frame at all) to the connection — src/ipc/server.rs lines 165-173. -/
theorem c2_frame_before_handshake (data : IpcFrame) :
    handle_event false (.frame data)
      = ⟨[], [], .fatal "Frame Sent before Handshake"⟩ := rfl

/-- C6: handshake validation while awaiting the handshake
(src/ipc/server.rs lines 113-150): a version other than 1 produces
exactly one written reply `Close{InvalidVersion}` and error termination —
regardless of the client id, so the version check is applied first — and
a version-1 handshake with an empty client id produces exactly one
written reply `Close{InvalidClientID}` and error termination. -/
theorem c6_handshake_validation (handshake_msg : HandshakeMessage) :
    (handshake_msg.version ≠ 1 →
      handle_event false (.handshake handshake_msg)
        = ⟨[.close ⟨.InvalidVersion, ""⟩], [], .fatal "Invalid Handshake version"⟩)
  ∧ (handshake_msg.version = 1 → handshake_msg.client_id = "" →
      handle_event false (.handshake handshake_msg)
        = ⟨[.close ⟨.InvalidClientID, ""⟩], [], .fatal "Invalid Client ID"⟩) := by
  constructor
  · intro hv
    simp [handle_event, hv]
  · intro hv hc
    simp [handle_event, hv, hc]

/-- C6 witness: the validation evaluated at a handshake with a bad
version AND an empty client id (showing the version reply wins), and at
a version-1 handshake with an empty client id. -/
theorem c6_handshake_validation_witness :
    handle_event false (.handshake ⟨2, ""⟩)
      = ⟨[.close ⟨.InvalidVersion, ""⟩], [], .fatal "Invalid Handshake version"⟩
  ∧ handle_event false (.handshake ⟨1, ""⟩)
      = ⟨[.close ⟨.InvalidClientID, ""⟩], [], .fatal "Invalid Client ID"⟩ :=
  ⟨(c6_handshake_validation ⟨2, ""⟩).1 (by decide),
   (c6_handshake_validation ⟨1, ""⟩).2 rfl rfl⟩

/-- `IpcActivityMetadata` from src/structs.rs lines 58-62. -/
structure IpcActivityMetadata where
  button_urls : List String
deriving Repr, DecidableEq

/-- `IpcActivity` from src/structs.rs lines 64-79: the canonical
normalized activity record (the Lean fields `type` and `instanceFlag`
are the source fields `r#type` and `instance`). -/
structure IpcActivity where
  application_id : String
  state : String
  details : String
  flags : Nat
  type : Nat
  assets : Assets
  buttons : List String
  metadata : IpcActivityMetadata
  instanceFlag : Bool
  timestamps : Option Timestamps
deriving Repr, DecidableEq

/-- `IpcActivityMessage` from src/structs.rs lines 81-86: one published
activity update. -/
structure IpcActivityMessage where
  activity : Option IpcActivity
  socket_id : String
  pid : Nat
deriving Repr, DecidableEq

/-- `IpcPartialActivityMessage::to_full_message` from src/structs.rs
lines 88-127: the pure activity normalizer.  `flags` is
`activity.instance as u64` (1 for true, 0 for false); `buttons` and
`metadata.button_urls` are the labels and urls mapped off the same raw
button list; `application_id` is the given client id or the empty string
(`Option::unwrap_or_default`). -/
def IpcPartialActivityMessage.to_full_message
    (p : Option IpcPartialActivity) (pid : Nat) (socket_id : String)
    (client_id : Option String) : IpcActivityMessage :=
  { activity :=
      match p with
      | some activity =>
          some {
            application_id := client_id.getD "",
            state := activity.state,
            details := activity.details,
            flags := if activity.instanceFlag then 1 else 0,
            type := 0,
            assets := activity.assets,
            buttons := activity.buttons.map (fun button => button.label),
            metadata := ⟨activity.buttons.map (fun button => button.url)⟩,
            instanceFlag := activity.instanceFlag,
            timestamps := activity.timestamps }
      | none => none,
    socket_id := socket_id,
    pid := pid }

/-- C9: button correspondence of the normalizer
(src/structs.rs lines 104-115): for a present raw activity with N
buttons, the normalized record exists and its `buttons` and
`metadata.button_urls` sequences both have length N, and at every index
the entries are the label and the url of the raw button at that index
(stated via the optional indexing `xs[i]?`, which is `some` at exactly
the indices below N). -/
theorem c9_button_correspondence (activity : IpcPartialActivity)
    (pid : Nat) (socket_id : String) (client_id : Option String) :
    ∃ a, (IpcPartialActivityMessage.to_full_message
            (some activity) pid socket_id client_id).activity = some a
      ∧ a.buttons.length = activity.buttons.length
      ∧ a.metadata.button_urls.length = activity.buttons.length
      ∧ ∀ i : Nat,
          a.buttons[i]? = (activity.buttons[i]?).map Button.label
        ∧ a.metadata.button_urls[i]?
            = (activity.buttons[i]?).map Button.url := by
  refine ⟨_, rfl, by simp, by simp, ?_⟩
  intro i
  constructor
  · simp [IpcPartialActivityMessage.to_full_message, List.getElem?_map]
  · simp [IpcPartialActivityMessage.to_full_message, List.getElem?_map]

/-- One step of the dispatcher loop of `Server::try_bind`
(src/server.rs lines 18-69): the loop owns a SINGLE `client_id:
Option<String>` variable shared across every session.  On a `Handshake`
event (already validated by the session handler) it overwrites that
variable with `Option::replace` and sends the READY dispatch command
back to the originating session; on a `Frame` event whose `args` are
present it publishes the normalized activity message built with the
CURRENT value of the shared variable; other events do nothing.  The
result is the new `client_id` value, the published activity messages,
and the session ids sent a READY reply. -/
def dispatch_step (client_id : Option String) :
    Nat × IpcMessage → Option String × List IpcActivityMessage × List Nat
  | (socket_id, .frame frame) =>
      match frame.args with
      | some args =>
          (client_id,
           [IpcPartialActivityMessage.to_full_message
              (some args.activity) args.pid (toString socket_id) client_id],
           [])
      | none => (client_id, [], [])
  | (socket_id, .handshake data) => (some data.client_id, [], [socket_id])
  | (_, _) => (client_id, [], [])

/-- The dispatcher loop of src/server.rs run over a finite prefix of the
received `(socket_id, message)` events, accumulating published activity
messages in order. -/
def dispatch_run (events : List (Nat × IpcMessage)) :
    Option String × List IpcActivityMessage :=
  events.foldl
    (fun acc ev =>
      let r := dispatch_step acc.1 ev
      (r.1, acc.2 ++ r.2.1))
    (none, [])

/-- A concrete raw activity used in dispatcher scenarios. -/
def sampleActivity : IpcPartialActivity :=
  ⟨"s", "d", ⟨some "i", none, none, none⟩, [], true, none⟩

/-- C7 (code bug): the published `application_id` is NOT the client id of
the session that originated the frame, and the client identity is NOT
per-session-set-once.  The dispatcher keeps one `client_id` variable for
all sessions and `replace`s it on every handshake, so after session 0
handshakes with client id "abc" and session 1 handshakes with client id
"xyz", an activity frame from session 0 is published with
`application_id = "xyz"` (the most recent handshake from ANY session),
where the claim requires "abc"; the final dispatcher state also shows
"abc" was overwritten by the second handshake rather than each session
keeping its own identity. -/
theorem c7_shared_client_id :
    (dispatch_run
        [(0, .handshake ⟨1, "abc"⟩),
         (1, .handshake ⟨1, "xyz"⟩),
         (0, .frame ⟨some ⟨sampleActivity, 42⟩, none, "SET_ACTIVITY", none, "n1"⟩)]).2.map
        (fun msg => (msg.socket_id, msg.activity.map (fun a => a.application_id)))
      = [("0", some "xyz")]
  ∧ (dispatch_run
        [(0, .handshake ⟨1, "abc"⟩), (1, .handshake ⟨1, "xyz"⟩)]).1
      = some "xyz" := ⟨rfl, rfl⟩

/-- The snapshot table of `BridgeServer` (src/bridge.rs line 22):
`HashMap<String, IpcActivityMessage>` keyed by session id as a string,
modelled as an association list whose keys are pairwise distinct (the
`HashMap` invariant) in some iteration order. -/
abbrev ActivityMap := List (String × IpcActivityMessage)

/-- `HashMap::insert` (upsert) as used by `send_activity`
(src/bridge.rs lines 141-144): the entry for the key is replaced. -/
def insertActivity (m : ActivityMap) (k : String) (v : IpcActivityMessage) :
    ActivityMap :=
  (k, v) :: m.filter (fun e => e.1 != k)

/-- The catch-up replay of `BridgeServer::handle_stream`
(src/bridge.rs lines 82-88): iterate the snapshot table and send one
message per entry whose `activity` is `Some`, skipping the rest. -/
def catchUp (m : ActivityMap) : List IpcActivityMessage :=
  (m.filter (fun e => e.2.activity.isSome)).map (fun e => e.2)

/-- `BridgeCommand` from src/bridge.rs lines 16-19. -/
inductive BridgeCommand where
  | message (msg : IpcActivityMessage) : BridgeCommand
  | close : BridgeCommand

/-- The messages written by one subscriber handler on receiving
`BridgeCommand::Close` (src/bridge.rs lines 99-106): `iter_mut` over the
shared snapshot table, setting every entry's `activity` to `None` and
sending the resulting message — one message per table entry, whatever
its previous value. -/
def clearBurst (m : ActivityMap) : List IpcActivityMessage :=
  m.map (fun e => { e.2 with activity := none })

/-- The snapshot table after the `iter_mut` of the Close branch: every
entry's activity cleared in place (keys unchanged). -/
def clearMap (m : ActivityMap) : ActivityMap :=
  m.map (fun e => (e.1, { e.2 with activity := none }))

/-- The command arm of one subscriber's `handle_stream` loop
(src/bridge.rs lines 92-110): a `Message` command writes that one
message; a `Close` command writes the clear burst, mutates the shared
table, and returns from the handler (the `Bool` is `true` exactly when
the handler terminates, i.e. `return Ok(())`). -/
def handleBridgeCommand (m : ActivityMap) :
    BridgeCommand → List IpcActivityMessage × ActivityMap × Bool
  | .message msg => ([msg], m, false)
  | .close => (clearBurst m, clearMap m, true)

/-- The fan-out of `BridgeServer::send_activity` and `close`
(src/bridge.rs lines 145-149 and 155-159): `try_for_each` over the
subscriber map sending on each entry's unbounded channel.  A channel
send fails exactly when the receiver was dropped, so each subscriber is
modelled as `(address, alive)`.  `try_for_each` STOPS at the first
failing send and returns its error: the result is the addresses
delivered to, in order, and whether every send succeeded. -/
def try_for_each_send (clients : List (String × Bool)) : List String × Bool :=
  match clients with
  | [] => ([], true)
  | (addr, alive) :: rest =>
      if alive then
        let r := try_for_each_send rest
        (addr :: r.1, r.2)
      else ([], false)

/-- `BridgeServer::send_activity` (src/bridge.rs lines 140-151): upsert
the snapshot table under `msg.socket_id`, then `try_for_each` the
subscriber channels.  Result: new table, delivered addresses, overall
success. -/
def send_activity (m : ActivityMap) (clients : List (String × Bool))
    (msg : IpcActivityMessage) : ActivityMap × List String × Bool :=
  (insertActivity m msg.socket_id msg, try_for_each_send clients)

/-- `BridgeServer::close` (src/bridge.rs lines 153-161) composed with
each reached subscriber's Close handling (src/bridge.rs lines 99-106):
`try_for_each` delivers `BridgeCommand::Close` to the subscribers in
iteration order, aborting at the first dead channel; each subscriber
that receives it emits `handleBridgeCommand m .close` against the
then-current shared table and terminates.  Result: per-subscriber bursts
(in delivery order) and the final table. -/
def close_all (clients : List (String × Bool)) (m : ActivityMap) :
    List (String × List IpcActivityMessage) × ActivityMap :=
  match clients with
  | [] => ([], m)
  | (addr, alive) :: rest =>
      if alive then
        let r := handleBridgeCommand m .close
        let r2 := close_all rest r.2.1
        ((addr, r.1) :: r2.1, r2.2)
      else ([], m)

theorem lookup_some_mem_keys (m : ActivityMap) (k : String) (v : IpcActivityMessage)
    (h : m.lookup k = some v) : k ∈ m.map Prod.fst := by
  induction m with
  | nil => simp [List.lookup] at h
  | cons e rest ih =>
      obtain ⟨a, w⟩ := e
      by_cases hak : k = a
      · simp [hak]
      · simp only [List.lookup, show (k == a) = false by simpa using hak] at h
        simp [ih h]

theorem catchUp_countP_not_mem (m : ActivityMap) (k : String)
    (hco : ∀ e ∈ m, e.2.socket_id = e.1) (hk : k ∉ m.map Prod.fst) :
    (catchUp m).countP (fun msg => msg.socket_id == k) = 0 := by
  induction m with
  | nil => rfl
  | cons e rest ih =>
      obtain ⟨a, v⟩ := e
      have hv : v.socket_id = a := hco (a, v) (by simp)
      have hak : ¬(k = a) := by
        intro hEq; exact hk (by simp [hEq])
      have hkr : k ∉ rest.map Prod.fst := by
        intro hmem; exact hk (by simp [hmem])
      have ihr := ih (fun e he => hco e (by simp [he])) hkr
      simp only [catchUp, List.filter_cons] at ihr ⊢
      by_cases hs : v.activity.isSome
      · simp only [hs, if_true, List.map_cons, List.countP_cons]
        simp only [hv, show (a == k) = false by simpa using fun h => hak h.symm]
        simpa using ihr
      · simp only [hs, Bool.false_eq_true, if_false]
        exact ihr

theorem catchUp_count (m : ActivityMap) (k : String)
    (hnd : (m.map Prod.fst).Nodup) (hco : ∀ e ∈ m, e.2.socket_id = e.1) :
    (catchUp m).countP (fun msg => msg.socket_id == k)
      = (match m.lookup k with
         | some v => if v.activity.isSome then 1 else 0
         | none => 0) := by
  induction m with
  | nil => rfl
  | cons e rest ih =>
      obtain ⟨a, v⟩ := e
      have hv : v.socket_id = a := hco (a, v) (by simp)
      rw [List.map_cons] at hnd
      have hcons := List.nodup_cons.mp hnd
      have hnd' : (rest.map Prod.fst).Nodup := hcons.2
      have hna : a ∉ rest.map Prod.fst := hcons.1
      have hco' : ∀ e ∈ rest, e.2.socket_id = e.1 :=
        fun e he => hco e (by simp [he])
      by_cases hak : k = a
      · subst hak
        have hzero := catchUp_countP_not_mem rest k hco' hna
        simp only [catchUp, List.filter_cons, List.lookup, beq_self_eq_true]
        by_cases hs : v.activity.isSome
        · simp only [hs, if_true, List.map_cons, List.countP_cons]
          simp only [catchUp] at hzero
          simp [hzero, hv, hs]
        · simp only [hs, Bool.false_eq_true, if_false]
          simp only [catchUp] at hzero
          simp [hzero, hs]
      · have ihr := ih hnd' hco'
        simp only [catchUp, List.filter_cons, List.lookup,
          show (k == a) = false by simpa using hak]
        by_cases hs : v.activity.isSome
        · simp only [hs, if_true, List.map_cons, List.countP_cons]
          simp only [catchUp] at ihr
          simp [ihr, hv, show (a == k) = false by simpa using fun h => hak h.symm]
        · simp only [hs, Bool.false_eq_true, if_false]
          simp only [catchUp] at ihr
          exact ihr

theorem catchUp_insert_none (m : ActivityMap) (k : String)
    (hco : ∀ e ∈ m, e.2.socket_id = e.1) (msgN : IpcActivityMessage)
    (h2 : msgN.activity = none) :
    (catchUp (insertActivity m k msgN)).countP
      (fun msg => msg.socket_id == k) = 0 := by
  have hco' : ∀ e ∈ m.filter (fun e => e.1 != k), e.2.socket_id = e.1 :=
    fun e he => hco e (List.mem_of_mem_filter he)
  have hk : k ∉ (m.filter (fun e => e.1 != k)).map Prod.fst := by
    intro hmem
    obtain ⟨e, he, hfst⟩ := List.mem_map.mp hmem
    have := List.of_mem_filter he
    simp [hfst] at this
  have hzero := catchUp_countP_not_mem _ k hco' hk
  simp only [insertActivity, catchUp, List.filter_cons, h2, Option.isSome_none,
    Bool.false_eq_true, if_false]
  simpa [catchUp] using hzero

/-- C3: catch-up completeness and clearing
(src/bridge.rs lines 83-88 and 140-151).  For any snapshot-table state
(association list with the HashMap key-uniqueness invariant, and each
entry's stored `socket_id` equal to its key, as `send_activity`
establishes), the catch-up replay sent to a newly connected subscriber
contains, for every session id `k`, exactly one message when the table
holds a non-`None` entry for `k` and no message otherwise; and after
`send_activity` publishes a `None`-activity message for `k` (the upsert
of src/bridge.rs lines 141-144), the next catch-up replay contains no
message for `k` at all. -/
theorem c3_catch_up (m : ActivityMap) (k : String)
    (hnd : (m.map Prod.fst).Nodup)
    (hco : ∀ e ∈ m, e.2.socket_id = e.1) :
    ((catchUp m).countP (fun msg => msg.socket_id == k)
      = (match m.lookup k with
         | some v => if v.activity.isSome then 1 else 0
         | none => 0))
  ∧ (∀ msgN : IpcActivityMessage, msgN.socket_id = k → msgN.activity = none →
      (catchUp (send_activity m [] msgN).1).countP
        (fun msg => msg.socket_id == k) = 0) :=
  ⟨catchUp_count m k hnd hco,
   fun msgN h1 h2 => by
     have := catchUp_insert_none m k hco msgN h2
     simpa [send_activity, h1] using this⟩

/-- A concrete normalized activity record used in bridge scenarios. -/
def sampleFull : IpcActivity :=
  ⟨"abc", "s", "d", 1, 0, ⟨none, none, none, none⟩, [], ⟨[]⟩, true, none⟩

/-- C3 witness: a table with a live entry for session "0" and a cleared
entry for session "1": the catch-up replays exactly one message for "0"
and none for "1", and after publishing `None` for "0" the replay for "0"
is empty. -/
theorem c3_catch_up_witness :
    ((catchUp [("0", ⟨some sampleFull, "0", 42⟩), ("1", ⟨none, "1", 7⟩)]).countP
        (fun msg => msg.socket_id == "0") = 1)
  ∧ ((catchUp [("0", ⟨some sampleFull, "0", 42⟩), ("1", ⟨none, "1", 7⟩)]).countP
        (fun msg => msg.socket_id == "1") = 0)
  ∧ ((catchUp (send_activity
          [("0", ⟨some sampleFull, "0", 42⟩), ("1", ⟨none, "1", 7⟩)] []
          ⟨none, "0", 42⟩).1).countP
        (fun msg => msg.socket_id == "0") = 0) := by
  refine ⟨?_, ?_, ?_⟩
  · exact (c3_catch_up _ "0" (by decide) (by decide)).1
  · exact (c3_catch_up _ "1" (by decide) (by decide)).1
  · exact (c3_catch_up _ "0" (by decide) (by decide)).2 _ rfl rfl

theorem clearBurst_countP_not_mem (m : ActivityMap) (k : String)
    (hco : ∀ e ∈ m, e.2.socket_id = e.1) (hk : k ∉ m.map Prod.fst) :
    (clearBurst m).countP
      (fun msg => msg.socket_id == k && msg.activity.isNone) = 0 := by
  induction m with
  | nil => rfl
  | cons e rest ih =>
      obtain ⟨a, v⟩ := e
      have hv : v.socket_id = a := hco (a, v) (by simp)
      have hak : ¬(k = a) := fun hEq => hk (by simp [hEq])
      have hkr : k ∉ rest.map Prod.fst := fun hmem => hk (by simp [hmem])
      have ihr := ih (fun e he => hco e (by simp [he])) hkr
      simp only [clearBurst, List.map_cons, List.countP_cons] at ihr ⊢
      simp [ihr, hv, show (a == k) = false by simpa using fun h => hak h.symm]

theorem clearBurst_count (m : ActivityMap) (k : String)
    (hnd : (m.map Prod.fst).Nodup) (hco : ∀ e ∈ m, e.2.socket_id = e.1)
    (hk : k ∈ m.map Prod.fst) :
    (clearBurst m).countP
      (fun msg => msg.socket_id == k && msg.activity.isNone) = 1 := by
  induction m with
  | nil => simp at hk
  | cons e rest ih =>
      obtain ⟨a, v⟩ := e
      have hv : v.socket_id = a := hco (a, v) (by simp)
      rw [List.map_cons] at hnd
      have hcons := List.nodup_cons.mp hnd
      have hco' : ∀ e ∈ rest, e.2.socket_id = e.1 :=
        fun e he => hco e (by simp [he])
      by_cases hak : k = a
      · subst hak
        have hzero := clearBurst_countP_not_mem rest k hco' hcons.1
        simp only [clearBurst, List.map_cons, List.countP_cons] at hzero ⊢
        simp [hzero, hv]
      · have hkr : k ∈ rest.map Prod.fst := by
          rw [List.map_cons] at hk
          rcases List.mem_cons.mp hk with h | h
          · exact absurd h hak
          · exact h
        have ihr := ih hcons.2 hco' hkr
        simp only [clearBurst, List.map_cons, List.countP_cons] at ihr ⊢
        simp [ihr, hv, show (a == k) = false by simpa using fun h => hak h.symm]

theorem clearMap_keys (m : ActivityMap) :
    (clearMap m).map Prod.fst = m.map Prod.fst := by
  induction m with
  | nil => rfl
  | cons e rest ih => simp [clearMap, ih]

theorem clearMap_coherent (m : ActivityMap)
    (hco : ∀ e ∈ m, e.2.socket_id = e.1) :
    ∀ e ∈ clearMap m, e.2.socket_id = e.1 := by
  intro e he
  obtain ⟨e0, he0, hEq⟩ := List.mem_map.mp he
  subst hEq
  exact hco e0 he0

theorem close_all_bursts (clients : List (String × Bool)) (m : ActivityMap)
    (k : String) (hall : ∀ c ∈ clients, c.2 = true)
    (hnd : (m.map Prod.fst).Nodup) (hco : ∀ e ∈ m, e.2.socket_id = e.1)
    (hk : k ∈ m.map Prod.fst) :
    ((close_all clients m).1.map Prod.fst = clients.map Prod.fst)
  ∧ ∀ b ∈ (close_all clients m).1,
      b.2.countP (fun msg => msg.socket_id == k && msg.activity.isNone) = 1 := by
  induction clients generalizing m with
  | nil => simp [close_all]
  | cons c rest ih =>
      obtain ⟨addr, alive⟩ := c
      have ha : alive = true := hall (addr, alive) (by simp)
      subst ha
      have hrec := ih (clearMap m) (fun c hc => hall c (by simp [hc]))
        (by rw [clearMap_keys]; exact hnd) (clearMap_coherent m hco)
        (by rw [clearMap_keys]; exact hk)
      constructor
      · simp only [close_all, if_pos trivial, handleBridgeCommand, List.map_cons]
        simp [hrec.1]
      · intro b hb
        simp only [close_all, if_pos trivial, handleBridgeCommand] at hb
        rcases List.mem_cons.mp hb with h | h
        · subst h
          exact clearBurst_count m k hnd hco hk
        · exact hrec.2 b h

/-- C4 (amended): shutdown clearing via `close_all`
(src/bridge.rs lines 99-106 and 153-161).  When every registered
subscriber channel is live, `close_all` reaches every subscriber, and
each one receives exactly one message with `activity = None` per
previously-live session (in fact one per table entry) and its handler
then returns (terminating the connection); the last conjunct records
that the Close handling terminates the handler.  The amendment: delivery
of the Close command itself uses `try_for_each`, which aborts at the
first dead (stale, already-disconnected) channel, so a connected
subscriber registered after a stale entry receives nothing — see
`c4_close_all_cex`. -/
theorem c4_close_all (clients : List (String × Bool)) (m : ActivityMap)
    (k : String) (v : IpcActivityMessage)
    (hall : ∀ c ∈ clients, c.2 = true)
    (hnd : (m.map Prod.fst).Nodup) (hco : ∀ e ∈ m, e.2.socket_id = e.1)
    (hkv : m.lookup k = some v) (hlive : v.activity.isSome) :
    ((close_all clients m).1.map Prod.fst = clients.map Prod.fst)
  ∧ (∀ b ∈ (close_all clients m).1,
      b.2.countP (fun msg => msg.socket_id == k && msg.activity.isNone) = 1)
  ∧ (handleBridgeCommand m .close).2.2 = true := by
  have hk : k ∈ m.map Prod.fst := lookup_some_mem_keys m k v hkv
  have h := close_all_bursts clients m k hall hnd hco hk
  exact ⟨h.1, h.2, rfl⟩

/-- C4 counterexample: the claim as stated fails on the code.  Session
"0" is previously live and subscriber "live" is connected, but a stale
entry "dead" (a subscriber whose handler exited early — e.g. a failed
websocket upgrade at src/bridge.rs line 79 — without the removal at line
135) sits before it in the subscriber map; `close()`'s `try_for_each`
fails on the dead channel and aborts, so the connected subscriber
receives no clear burst at all before the process exits. -/
theorem c4_close_all_cex :
    (("live", true) ∈ [("dead", false), ("live", true)])
  ∧ (close_all [("dead", false), ("live", true)]
        [("0", ⟨some sampleFull, "0", 42⟩)]).1 = [] :=
  ⟨by simp, rfl⟩

/-- C4 witness: two live subscribers and one live session "0": both
subscribers appear in the result, and subscriber "a"'s burst carries
exactly one `None`-activity message for session "0". -/
theorem c4_close_all_witness :
    ((close_all [("a", true), ("b", true)]
        [("0", ⟨some sampleFull, "0", 42⟩)]).1.map Prod.fst = ["a", "b"])
  ∧ ((clearBurst [("0", ⟨some sampleFull, "0", 42⟩)]).countP
        (fun msg => msg.socket_id == "0" && msg.activity.isNone) = 1) :=
  ⟨(c4_close_all [("a", true), ("b", true)] [("0", ⟨some sampleFull, "0", 42⟩)]
      "0" ⟨some sampleFull, "0", 42⟩ (by decide) (by decide) (by decide) rfl rfl).1,
   (c4_close_all [("a", true), ("b", true)] [("0", ⟨some sampleFull, "0", 42⟩)]
      "0" ⟨some sampleFull, "0", 42⟩ (by decide) (by decide) (by decide) rfl rfl).2.1
     ("a", clearBurst [("0", ⟨some sampleFull, "0", 42⟩)])
     (List.mem_cons_self _ _)⟩

theorem try_for_each_send_eq (clients : List (String × Bool)) :
    try_for_each_send clients
      = ((clients.takeWhile (fun c => c.2)).map Prod.fst,
         clients.all (fun c => c.2)) := by
  induction clients with
  | nil => rfl
  | cons c rest ih =>
      obtain ⟨addr, alive⟩ := c
      cases alive <;>
        simp [try_for_each_send, List.takeWhile_cons, ih]

/-- C5 (amended): fan-out failure handling in `send_activity`
(src/bridge.rs lines 140-151).  The claim as stated fails on the code:
`try_for_each` short-circuits, so a queue-send failure for one
subscriber DOES prevent delivery to every subscriber after it in
iteration order (see `c5_fanout_cex`).  What holds: the update is
delivered to exactly the longest all-live prefix of the subscriber map,
the call reports success exactly when every send succeeded, and the
snapshot-table upsert happens regardless. -/
theorem c5_fanout (m : ActivityMap) (clients : List (String × Bool))
    (msg : IpcActivityMessage) :
    ((send_activity m clients msg).2.1
        = (clients.takeWhile (fun c => c.2)).map Prod.fst)
  ∧ ((send_activity m clients msg).2.2 = clients.all (fun c => c.2))
  ∧ (send_activity m clients msg).1 = insertActivity m msg.socket_id msg := by
  refine ⟨?_, ?_, rfl⟩
  · simp [send_activity, try_for_each_send_eq]
  · simp [send_activity, try_for_each_send_eq]

/-- C5 counterexample: the claim as stated fails on the code.
Subscriber "b" is registered and its channel is live, but the send to
the dead channel of "a" (iterated first) fails, `try_for_each` aborts,
and "b" receives nothing for this update. -/
theorem c5_fanout_cex :
    (("b", true) ∈ [("a", false), ("b", true)])
  ∧ (send_activity [] [("a", false), ("b", true)] ⟨none, "7", 1⟩).2.1 = [] :=
  ⟨by simp, rfl⟩
